import Mathlib

/-!
Verification of the tweetlib request/response core (src/twitter.go).

The Go source is shallowly embedded: pure data flow becomes Lean functions,
the external HTTP transport becomes a function parameter, and the calls into
the Go standard library (encoding/json, io) become explicit outcome fields
carried by the modelled response.  Observable effects are reified: each
operation returns, besides its Go results, the list of lines it writes to
standard output (fmt.Println / fmt.Printf) and the list of HTTP requests it
hands to the transport (http.Client.Do).
-/

namespace Tweetlib

/-- URL to post tweets (constant postURL in twitter.go). -/
def postURL : String := "http://api.twitter.com/1.1/statuses/update.json"

/-- General URL for API calls (constant apiURL in twitter.go). -/
def apiURL : String := "https://api.twitter.com/1.1"

/-- twitterError: one error generated by the Twitter API. -/
structure TwitterError where
  message : String
  code : Int
deriving DecidableEq

/-- twitterErrorReply: list of errors returned for a request to the API. -/
structure TwitterErrorReply where
  errors : List TwitterError
deriving DecidableEq

/-- Embedding of (*twitterErrorReply).String: writes, into a buffer that
starts empty, the line "message (code)" followed by a newline for EVERY
entry, in order (fmt.Fprintf with format string percent-s space paren
percent-d paren newline). -/
def TwitterErrorReply.string (ter : TwitterErrorReply) : String :=
  ter.errors.foldl (fun buf e => buf ++ e.message ++ " (" ++ toString e.code ++ ")\n") ""

/-- The Go errors the core can return, tagged by their dynamic type /
origin, because Call discriminates on reflect.TypeOf of the error. -/
inductive GoError where
  /-- fmt.Errorf for a method other than GET and POST; carries the method. -/
  | invalidMethod (method : String)
  /-- error returned by ioutil.ReadAll of a response body. -/
  | readError (msg : String)
  /-- error surfaced from encoding/json that is NOT a *json.UnmarshalTypeError
  (for example a *json.SyntaxError on malformed input). -/
  | jsonError (msg : String)
  /-- a *json.UnmarshalTypeError: syntactically valid JSON whose fields do
  not structurally match the target. -/
  | typeMismatchError (msg : String)
  /-- a *json.InvalidUnmarshalError: the unmarshal target is a nil pointer. -/
  | invalidUnmarshalError (msg : String)
  /-- errors.New applied to a folded twitterErrorReply message. -/
  | apiError (msg : String)
  /-- error returned by the transport (http.Client.Do). -/
  | transportError (msg : String)
deriving DecidableEq

/-- Outcome of ioutil.ReadAll on a response body: the bytes read (slurp)
together with the read error, if any (Go returns both). -/
structure BodyRead where
  slurp : String
  readErr : Option String
deriving DecidableEq

/-- Outcome of json.Unmarshal of a body into a twitterErrorReply value.
The JSON parser is Go standard library code, external to the repository,
so its verdict on the concrete body travels with the modelled response. -/
inductive ParseOutcome where
  | ok (reply : TwitterErrorReply)
  | fail (msg : String)
deriving DecidableEq

/-- Modelled HTTP response, as far as the core inspects it: the status
code, the outcome of reading the body, the outcome of parsing the body as
an error envelope, and the error json.Decoder.Decode returns when asked to
decode the body into a nil *Tweet.  For a nil pointer target Go encoding/json
ALWAYS returns a non-nil error: io.EOF on an empty body, a *json.SyntaxError
on malformed JSON, and otherwise *json.InvalidUnmarshalError from the
nil-target check, so this last field is a GoError, not an Option. -/
structure HttpResponse where
  statusCode : Int
  read : BodyRead
  parseAsErrorReply : ParseOutcome
  decodeNilTweetErr : GoError
deriving DecidableEq

/-- Embedding of checkResponse (twitter.go lines 55-69).  Returns the Go
error (none for a 2xx status) paired with the lines printed to standard
output: line 60 unconditionally prints the slurped body of every non-2xx
response. -/
def checkResponse (res : HttpResponse) : Option GoError × List String :=
  if 200 ≤ res.statusCode ∧ res.statusCode ≤ 299 then
    (none, [])
  else
    match res.read.readErr with
    | some e => (some (.readError e), [res.read.slurp])
    | none =>
      match res.parseAsErrorReply with
      | .fail e => (some (.jsonError e), [res.read.slurp])
      | .ok jerr => (some (.apiError jerr.string), [res.read.slurp])

/-- The folded error message: one "message (code)" line per entry, in
original order, each terminated by a newline. -/
def foldedMessage : List TwitterError → String
  | [] => ""
  | e :: rest => e.message ++ " (" ++ toString e.code ++ ")\n" ++ foldedMessage rest

/-- Is a checkResponse result in the decode-failure class, i.e. an error
surfaced from encoding/json rather than synthesized from an envelope? -/
def isDecodeFailure : Option GoError → Bool
  | some (.jsonError _) => true
  | _ => false

/-- Naive substring test over character lists. -/
def charsContain (pat : List Char) : List Char → Bool
  | [] => pat.isEmpty
  | c :: rest => pat.isPrefixOf (c :: rest) || charsContain pat rest

/-- Does s contain pat as a contiguous substring? -/
def strContains (s pat : String) : Bool :=
  charsContain pat.data s.data

/-! ### The parameter container

Modelled from the spec: the Optionals type and its constructor NewOptionals
live in a file of this repository that is not under src (src only holds
twitter.go, whose CallJSON and endpoint methods call NewOptionals and read
opts.Values).  The spec describes the Parameter Container as an ordered
mapping from a name to one or more string-coercible values, stored in
canonical string form, constructed empty, and encodable to a percent-escaped
ampersand-joined key=value query string; Go url.Values is a map from string
to a list of strings, so values below is a list of such bindings. -/

/-- UTF-8 bytes of a character, used by percent-escaping. -/
def utf8Bytes (c : Char) : List Nat :=
  let n := c.toNat
  if n < 0x80 then [n]
  else if n < 0x800 then [0xC0 + n / 0x40, 0x80 + n % 0x40]
  else if n < 0x10000 then
    [0xE0 + n / 0x1000, 0x80 + n / 0x40 % 0x40, 0x80 + n % 0x40]
  else
    [0xF0 + n / 0x40000, 0x80 + n / 0x1000 % 0x40, 0x80 + n / 0x40 % 0x40,
      0x80 + n % 0x40]

/-- Uppercase hexadecimal digit. -/
def hexDigit (n : Nat) : Char :=
  if n < 10 then Char.ofNat (48 + n) else Char.ofNat (55 + n)

/-- Characters Go url.QueryEscape leaves unescaped. -/
def isUnreserved (c : Char) : Bool :=
  c.isAlphanum || c = '-' || c = '_' || c = '.' || c = '~'

/-- Percent-escaping of one character: space becomes a plus sign,
unreserved characters pass through, everything else becomes percent-hex
per UTF-8 byte. -/
def escapeChar (c : Char) : List Char :=
  if c = ' ' then ['+']
  else if isUnreserved c then [c]
  else (utf8Bytes c).flatMap fun b => ['%', hexDigit (b / 16), hexDigit (b % 16)]

/-- Modelled from the spec: query-escaping of a full string. -/
def queryEscape (s : String) : String :=
  ⟨s.data.flatMap escapeChar⟩

/-- Modelled from the spec: the encoding of a list of bindings to the
ampersand-joined key=value string. -/
def encodeValues (vs : List (String × List String)) : String :=
  String.intercalate "&"
    (List.flatten (vs.map fun p => p.2.map fun v => queryEscape p.1 ++ "=" ++ queryEscape v))

/-- Modelled from the spec: the Parameter Container (type Optionals with
its url.Values field). -/
structure Optionals where
  values : List (String × List String)
deriving DecidableEq

/-- Modelled from the spec: NewOptionals constructs an empty container. -/
def NewOptionals : Optionals :=
  ⟨[]⟩

/-- Modelled from the spec: Optionals.Add stores the canonical string form
of a value under a name (appending to the values already bound there). -/
def Optionals.add (o : Optionals) (name value : String) : Optionals :=
  if (o.values.map Prod.fst).contains name then
    ⟨o.values.map fun p => if p.1 = name then (p.1, p.2 ++ [value]) else p⟩
  else
    ⟨o.values ++ [(name, [value])]⟩

/-- Encoding of a container, url.Values.Encode in the source. -/
def Optionals.encode (o : Optionals) : String :=
  encodeValues o.values

/-! ### The request builder and the generic call layer -/

/-- The HTTP request the core hands to the transport. -/
structure HttpRequest where
  method : String
  url : String
  body : String
  headers : List (String × String)
deriving DecidableEq

/-- Result of http.Client.Do, supplied by the external transport. -/
inductive TransportResult where
  | ok (res : HttpResponse)
  | fail (msg : String)
deriving DecidableEq

/-- A transport capability: executes a request. -/
def Transport : Type :=
  HttpRequest → TransportResult

/-- The full observable outcome of CallJSON: the two Go results plus the
reified effects (lines printed to standard output, requests handed to the
transport). -/
structure CallResult where
  rawJSON : Option String
  err : Option GoError
  stdout : List String
  sent : List HttpRequest
deriving DecidableEq

/-- The request CallJSON builds after method validation (twitter.go lines
109-118): the endpoint URL is apiURL slash endpoint dot json, with the
encoded parameters appended after a question mark for BOTH verbs; a POST
carries the same encoded string as its body and the urlencoded content
type, a GET carries no body and no headers. -/
def CallJSONrequest (method endpoint : String) (o : Optionals) : HttpRequest :=
  let url := apiURL ++ "/" ++ endpoint ++ ".json?" ++ o.encode
  if method = "POST" then
    ⟨method, url, o.encode, [("Content-Type", "application/x-www-form-urlencoded")]⟩
  else
    ⟨method, url, "", []⟩

/-- Embedding of Client.CallJSON (twitter.go lines 101-128).  Line 110
prints the full endpoint URL to standard output before dispatching. -/
def CallJSON (t : Transport) (method endpoint : String) (opts : Option Optionals) :
    CallResult :=
  if method ≠ "GET" ∧ method ≠ "POST" then
    ⟨none, some (.invalidMethod method), [], []⟩
  else
    match t (CallJSONrequest method endpoint (opts.getD NewOptionals)) with
    | .fail e =>
      ⟨none, some (.transportError e),
        [(CallJSONrequest method endpoint (opts.getD NewOptionals)).url],
        [CallJSONrequest method endpoint (opts.getD NewOptionals)]⟩
    | .ok res =>
      match checkResponse res with
      | (some e, out) =>
        ⟨none, some e,
          (CallJSONrequest method endpoint (opts.getD NewOptionals)).url :: out,
          [CallJSONrequest method endpoint (opts.getD NewOptionals)]⟩
      | (none, out) =>
        ⟨some res.read.slurp, res.read.readErr.map .readError,
          (CallJSONrequest method endpoint (opts.getD NewOptionals)).url :: out,
          [CallJSONrequest method endpoint (opts.getD NewOptionals)]⟩

/-- Does a Go error have dynamic type *json.UnmarshalTypeError?  Call
compares reflect.TypeOf of the unmarshal error against it. -/
def isUnmarshalTypeError : GoError → Bool
  | .typeMismatchError _ => true
  | _ => false

/-- Outcome of Client.Call: the Go error plus the reified effects. -/
structure CallOutcome where
  err : Option GoError
  stdout : List String
  sent : List HttpRequest
deriving DecidableEq

/-- Embedding of Client.Call (twitter.go lines 144-156).  The resp target
is modelled by its json.Unmarshal verdict: a function from the raw JSON to
the error encoding/json reports when unmarshalling into the concrete
target (none on full success); a nil resp is the none case, skipping
deserialization.  An unmarshal error is returned only when its dynamic
type differs from *json.UnmarshalTypeError. -/
def Call (t : Transport) (method endpoint : String) (opts : Option Optionals)
    (resp : Option (String → Option GoError)) : CallOutcome :=
  let r := CallJSON t method endpoint opts
  match r.err with
  | some e => ⟨some e, r.stdout, r.sent⟩
  | none =>
    match resp with
    | none => ⟨none, r.stdout, r.sent⟩
    | some dec =>
      match dec (r.rawJSON.getD "") with
      | none => ⟨none, r.stdout, r.sent⟩
      | some e =>
        if isUnmarshalTypeError e then ⟨none, r.stdout, r.sent⟩
        else ⟨some e, r.stdout, r.sent⟩

/-- Embedding of Client.Mentions (twitter.go lines 163-170): substitutes a
fresh empty container for a nil opts, then delegates to Call with a freshly
allocated TweetList target (modelled by its unmarshal verdict dec). -/
def Mentions (t : Transport) (opts : Option Optionals)
    (dec : String → Option GoError) : CallOutcome :=
  let o := opts.getD NewOptionals
  Call t "GET" "statuses/mentions_timeline" (some o) (some dec)

/-! ### The multipart upload builder -/

/-- Modelled from the spec: the Typed Result for a tweet (type Tweet lives
in a file of this repository not under src; only its shape as a decode
target matters here). -/
structure Tweet where
  id : Int
  text : String
deriving DecidableEq

/-- Modelled from the spec: a media attachment (type TweetMedia, also not
under src): a filename and the raw bytes. -/
structure TweetMedia where
  filename : String
  data : String
deriving DecidableEq

/-- Go mime/multipart escaping of quotes and backslashes inside a
Content-Disposition value. -/
def escapeQuotes (s : String) : String :=
  ⟨s.data.flatMap fun c => if c = '\\' || c = '"' then ['\\', c] else [c]⟩

/-- The delimiter mime/multipart writes before a part: the first part has
no leading CRLF, every later one does. -/
def partDelim (boundary : String) (first : Bool) : String :=
  (if first then "" else "\r\n") ++ "--" ++ boundary ++ "\r\n"

/-- A form field part as written by multipart.Writer.WriteField. -/
def fieldPart (boundary : String) (first : Bool) (name value : String) : String :=
  partDelim boundary first ++
    "Content-Disposition: form-data; name=\"" ++ escapeQuotes name ++ "\"\r\n\r\n" ++
    value

/-- A file part as written by multipart.Writer.CreateFormFile followed by
writing the bytes. -/
def filePart (boundary : String) (first : Bool) (field filename bytes : String) : String :=
  partDelim boundary first ++
    "Content-Disposition: form-data; name=\"" ++ escapeQuotes field ++
    "\"; filename=\"" ++ escapeQuotes filename ++ "\"\r\n" ++
    "Content-Type: application/octet-stream\r\n\r\n" ++
    bytes

/-- The closing delimiter multipart.Writer.Close writes. -/
def closingDelim (boundary : String) : String :=
  "\r\n--" ++ boundary ++ "--\r\n"

/-- Concatenation of a list of strings. -/
def strJoin : List String → String
  | [] => ""
  | s :: rest => s ++ strJoin rest

/-- The form fields UpdateStatusWithMedia writes for the parameter
container: one field per binding, carrying only the FIRST value bound to
the name (the Go loop writes v[0]). -/
def paramFields (boundary : String) (params : List (String × List String)) : String :=
  strJoin (params.map fun p => fieldPart boundary false p.1 (p.2.headD ""))

/-- The multipart body UpdateStatusWithMedia assembles (twitter.go lines
274-286): a status field first, then one field per binding of the
container, then the media file part, then the closing delimiter.  The
boundary is the token multipart.NewWriter drew at random; it is passed in
as a parameter of the model. -/
def multipartBody (boundary status : String) (params : List (String × List String))
    (media : TweetMedia) : String :=
  fieldPart boundary true "status" status ++
    (paramFields boundary params ++
      (filePart boundary false "media[]" media.filename media.data ++
        closingDelim boundary))

/-- The request UpdateStatusWithMedia builds (twitter.go lines 285-290):
a POST to the update_with_media endpoint whose URL carries the encoded
container (the status is NOT added to the container, so it is absent from
the query string), whose body is the multipart body, and whose sole header
is the Content-Type naming the same boundary used inside the body (the
source formats it without a space after the semicolon). -/
def updateStatusWithMediaRequest (boundary status : String) (media : TweetMedia)
    (o : Optionals) : HttpRequest :=
  ⟨"POST",
    apiURL ++ "/statuses/update_with_media.json?" ++ encodeValues o.values,
    multipartBody boundary status o.values media,
    [("Content-Type", "multipart/form-data;boundary=" ++ boundary)]⟩

/-- Outcome of UpdateStatusWithMedia: both Go results plus the effects. -/
structure TweetResult where
  tweet : Option Tweet
  err : Option GoError
  stdout : List String
  sent : List HttpRequest
deriving DecidableEq

/-- Embedding of Client.UpdateStatusWithMedia (twitter.go lines 269-303).
Writing the multipart body into a bytes.Buffer cannot fail, so the
CreateFormFile error branch is dead.  On a 2xx response the source decodes
the body into its named return value tweet, a *Tweet that was never
allocated, i.e. a nil pointer: Go encoding/json then always reports an
error (the decodeNilTweetErr field of the response), and tweet stays nil. -/
def UpdateStatusWithMedia (t : Transport) (status : String) (media : TweetMedia)
    (opts : Option Optionals) (boundary : String) : TweetResult :=
  match t (updateStatusWithMediaRequest boundary status media (opts.getD NewOptionals)) with
  | .fail e =>
    ⟨none, some (.transportError e), [],
      [updateStatusWithMediaRequest boundary status media (opts.getD NewOptionals)]⟩
  | .ok res =>
    match checkResponse res with
    | (some e, out) =>
      ⟨none, some e, out,
        [updateStatusWithMediaRequest boundary status media (opts.getD NewOptionals)]⟩
    | (none, out) =>
      ⟨none, some res.decodeNilTweetErr, out,
        [updateStatusWithMediaRequest boundary status media (opts.getD NewOptionals)]⟩

/-! ## Helper lemmas -/

theorem foldl_buffer_eq_join (entries : List TwitterError) (buf : String) :
    entries.foldl (fun b e => b ++ e.message ++ " (" ++ toString e.code ++ ")\n") buf
      = buf ++ foldedMessage entries := by
  induction entries generalizing buf with
  | nil => simp [foldedMessage]
  | cons e rest ih =>
    rw [List.foldl_cons, ih]
    simp [foldedMessage, String.append_assoc]

theorem twitterErrorReply_string_eq_folded (ter : TwitterErrorReply) :
    ter.string = foldedMessage ter.errors := by
  have h := foldl_buffer_eq_join ter.errors ""
  simpa [TwitterErrorReply.string] using h

theorem strJoin_append (a b : List String) :
    strJoin (a ++ b) = strJoin a ++ strJoin b := by
  induction a with
  | nil => simp [strJoin]
  | cons s rest ih => simp [strJoin, ih, String.append_assoc]

theorem checkResponse_success (res : HttpResponse)
    (h2 : 200 ≤ res.statusCode) (h3 : res.statusCode ≤ 299) :
    checkResponse res = (none, []) := by
  simp [checkResponse, h2, h3]

theorem callJSON_sent (t : Transport) (method endpoint : String) (opts : Option Optionals)
    (hm : method = "GET" ∨ method = "POST") :
    (CallJSON t method endpoint opts).sent
      = [CallJSONrequest method endpoint (opts.getD NewOptionals)] := by
  have hcond : ¬(method ≠ "GET" ∧ method ≠ "POST") := by
    rcases hm with h | h <;> simp [h]
  unfold CallJSON
  rw [if_neg hcond]
  cases ht : t (CallJSONrequest method endpoint (opts.getD NewOptionals)) with
  | fail e => rfl
  | ok res =>
    rcases h : checkResponse res with ⟨oe, out⟩
    cases oe <;> simp [h]

theorem callJSON_success (t : Transport) (method endpoint : String) (opts : Option Optionals)
    (res : HttpResponse)
    (hm : method = "GET" ∨ method = "POST")
    (ht : t (CallJSONrequest method endpoint (opts.getD NewOptionals)) = .ok res)
    (h2 : 200 ≤ res.statusCode) (h3 : res.statusCode ≤ 299) :
    CallJSON t method endpoint opts
      = ⟨some res.read.slurp, res.read.readErr.map .readError,
          [(CallJSONrequest method endpoint (opts.getD NewOptionals)).url],
          [CallJSONrequest method endpoint (opts.getD NewOptionals)]⟩ := by
  have hcond : ¬(method ≠ "GET" ∧ method ≠ "POST") := by
    rcases hm with h | h <;> simp [h]
  unfold CallJSON
  rw [if_neg hcond, ht]
  simp [checkResponse_success res h2 h3]

/-! ## Claims -/

/-- C1 counterexample: for status 404 with the single-entry envelope
carrying message "Invalid id" and code 144, the synthesized error message
is "Invalid id (144)" followed by a newline, which is NOT exactly
"Invalid id (144)": the Go loop terminates every entry, the last included,
with a newline. -/
theorem c1_counterexample :
    (checkResponse ⟨404,
        ⟨"\x7b\"errors\":[\x7b\"message\":\"Invalid id\",\"code\":144\x7d]\x7d", none⟩,
        .ok ⟨[⟨"Invalid id", 144⟩]⟩, .jsonError "unused"⟩).1
      = some (.apiError "Invalid id (144)\n")
    ∧ "Invalid id (144)\n" ≠ "Invalid id (144)" := by
  exact ⟨rfl, by decide⟩

/-- C1 (amended): for every non-2xx response whose body reads fully and
parses as an API Error Envelope, checkResponse returns a single error
whose message is, for every entry in original order, the line
"message (code)" TERMINATED by a newline — so each entry, the last
included, carries a trailing newline, and the 404 example yields exactly
"Invalid id (144)" followed by a newline. -/
theorem checkResponse_folds_errors (res : HttpResponse) (entries : List TwitterError)
    (h : ¬(200 ≤ res.statusCode ∧ res.statusCode ≤ 299))
    (hr : res.read.readErr = none)
    (hp : res.parseAsErrorReply = .ok ⟨entries⟩) :
    (checkResponse res).1 = some (.apiError (foldedMessage entries)) := by
  simp [checkResponse, h, hr, hp, twitterErrorReply_string_eq_folded]

/-- C1 witness: the amended folding applied to a concrete two-entry 404. -/
theorem checkResponse_folds_errors_witness :
    (checkResponse ⟨404, ⟨"ignored", none⟩, .ok ⟨[⟨"A", 1⟩, ⟨"B", 2⟩]⟩,
        .jsonError "unused"⟩).1
      = some (.apiError "A (1)\nB (2)\n") := by
  have h := checkResponse_folds_errors
    ⟨404, ⟨"ignored", none⟩, .ok ⟨[⟨"A", 1⟩, ⟨"B", 2⟩]⟩, .jsonError "unused"⟩
    [⟨"A", 1⟩, ⟨"B", 2⟩] (by decide) rfl rfl
  simpa [foldedMessage] using h

/-- C5 counterexample: a 404 whose body parses as an envelope with zero
entries is NOT treated as a decode failure: checkResponse synthesizes an
error from the empty envelope, whose message is the empty string. -/
theorem c5_counterexample :
    (checkResponse ⟨404, ⟨"\x7b\x7d", none⟩, .ok ⟨[]⟩, .jsonError "unused"⟩).1
      = some (.apiError "")
    ∧ isDecodeFailure
        (checkResponse ⟨404, ⟨"\x7b\x7d", none⟩, .ok ⟨[]⟩, .jsonError "unused"⟩).1
      = false := by
  exact ⟨rfl, rfl⟩

/-- C5 (amended): for every failing (non-2xx) response whose body parses
as an envelope with zero entries, checkResponse returns the error
synthesized from the empty envelope — an error whose message is the empty
string — not a decode failure. -/
theorem checkResponse_empty_envelope (res : HttpResponse)
    (h : ¬(200 ≤ res.statusCode ∧ res.statusCode ≤ 299))
    (hr : res.read.readErr = none)
    (hp : res.parseAsErrorReply = .ok ⟨[]⟩) :
    (checkResponse res).1 = some (.apiError "")
    ∧ isDecodeFailure (checkResponse res).1 = false := by
  have hmain : (checkResponse res).1 = some (.apiError "") := by
    simp [checkResponse, h, hr, hp, TwitterErrorReply.string]
  exact ⟨hmain, by rw [hmain]; rfl⟩

/-- C5 witness: the amended statement at a concrete 500 response. -/
theorem checkResponse_empty_envelope_witness :
    (checkResponse ⟨500, ⟨"\x7b\"errors\":[]\x7d", none⟩, .ok ⟨[]⟩,
        .jsonError "unused"⟩).1 = some (.apiError "")
    ∧ isDecodeFailure
        (checkResponse ⟨500, ⟨"\x7b\"errors\":[]\x7d", none⟩, .ok ⟨[]⟩,
          .jsonError "unused"⟩).1 = false :=
  checkResponse_empty_envelope
    ⟨500, ⟨"\x7b\"errors\":[]\x7d", none⟩, .ok ⟨[]⟩, .jsonError "unused"⟩
    (by decide) rfl rfl

/-- C8: the core DOES write to standard output, contradicting the claim
that it never logs: CallJSON prints every request URL (twitter.go line
110, fmt.Println), and checkResponse prints the raw body of every non-2xx
response (line 60, fmt.Printf). -/
theorem core_prints_to_stdout :
    (CallJSON (fun _ => .fail "connection refused") "GET" "statuses/home_timeline"
        none).stdout
      = ["https://api.twitter.com/1.1/statuses/home_timeline.json?"]
    ∧ (checkResponse ⟨500, ⟨"Internal Server Error", none⟩,
        .fail "invalid character I looking for beginning of value",
        .jsonError "unused"⟩).2
      = ["Internal Server Error"] := by
  exact ⟨rfl, rfl⟩

/-- C4: for every method other than GET and POST, CallJSON returns the
invalid-method error, prints nothing, and hands no request to the
transport; Call propagates the same error with the same (empty) effect
traces. -/
theorem callJSON_rejects_invalid_method (t : Transport) (method endpoint : String)
    (opts : Option Optionals) (resp : Option (String → Option GoError))
    (h1 : method ≠ "GET") (h2 : method ≠ "POST") :
    CallJSON t method endpoint opts = ⟨none, some (.invalidMethod method), [], []⟩
    ∧ Call t method endpoint opts resp = ⟨some (.invalidMethod method), [], []⟩ := by
  have hc : CallJSON t method endpoint opts
      = ⟨none, some (.invalidMethod method), [], []⟩ := by
    simp [CallJSON, h1, h2]
  exact ⟨hc, by simp [Call, hc]⟩

/-- C4 witness: the DELETE verb is rejected without any transport call. -/
theorem callJSON_rejects_invalid_method_witness :
    CallJSON (fun _ => .fail "unused") "DELETE" "statuses/update" none
      = ⟨none, some (.invalidMethod "DELETE"), [], []⟩
    ∧ Call (fun _ => .fail "unused") "DELETE" "statuses/update" none none
      = ⟨some (.invalidMethod "DELETE"), [], []⟩ :=
  callJSON_rejects_invalid_method (fun _ => .fail "unused") "DELETE" "statuses/update"
    none none (by decide) (by decide)

/-- C9: passing a nil parameter container is equivalent to passing a
freshly constructed empty one, for CallJSON, Call and the Mentions
endpoint operation: the substituted container is the value NewOptionals
builds, and in this pure model no state is shared between calls. -/
theorem nil_opts_equiv_fresh_empty (t : Transport) (method endpoint : String)
    (resp : Option (String → Option GoError)) (dec : String → Option GoError) :
    CallJSON t method endpoint none = CallJSON t method endpoint (some NewOptionals)
    ∧ Call t method endpoint none resp = Call t method endpoint (some NewOptionals) resp
    ∧ Mentions t none dec = Mentions t (some NewOptionals) dec :=
  ⟨rfl, rfl, rfl⟩

/-- C2 counterexample: a POST built by CallJSON for the status parameter
"hi" targets a URL that DOES carry the encoded parameters as its query
string, in addition to the urlencoded body. -/
theorem c2_counterexample :
    (CallJSON (fun _ => .fail "refused") "POST" "statuses/update"
        (some ⟨[("status", ["hi"])]⟩)).sent
      = [CallJSONrequest "POST" "statuses/update" ⟨[("status", ["hi"])]⟩]
    ∧ (CallJSONrequest "POST" "statuses/update" ⟨[("status", ["hi"])]⟩).url
      = "https://api.twitter.com/1.1/statuses/update.json?status=hi"
    ∧ strContains
        (CallJSONrequest "POST" "statuses/update" ⟨[("status", ["hi"])]⟩).url
        "?status=hi" = true
    ∧ (CallJSONrequest "POST" "statuses/update" ⟨[("status", ["hi"])]⟩).body
      = "status=hi" := by
  exact ⟨rfl, rfl, rfl, rfl⟩

/-- C2 (amended): for every POST request built by CallJSON, the encoded
parameter string forms the urlencoded request body AND is also appended
to the request URL after a question mark — the URL does carry the query
string, duplicating the body. -/
theorem callJSON_post_placement (t : Transport) (endpoint : String)
    (opts : Option Optionals) :
    (CallJSON t "POST" endpoint opts).sent
      = [CallJSONrequest "POST" endpoint (opts.getD NewOptionals)]
    ∧ (CallJSONrequest "POST" endpoint (opts.getD NewOptionals)).body
      = (opts.getD NewOptionals).encode
    ∧ (CallJSONrequest "POST" endpoint (opts.getD NewOptionals)).url
      = apiURL ++ "/" ++ endpoint ++ ".json?" ++ (opts.getD NewOptionals).encode := by
  exact ⟨callJSON_sent t "POST" endpoint opts (Or.inr rfl), rfl, rfl⟩

/-- C7: for a fixed endpoint path and parameter container, the GET-built
request carries the encoded parameters in its URL query string, has an
empty body and no headers (so the urlencoded content type is set only for
POST), while the POST-built request has the encoded parameter string as
its body and carries the urlencoded Content-Type header. -/
theorem get_vs_post_placement (t : Transport) (endpoint : String)
    (opts : Option Optionals) :
    (CallJSON t "GET" endpoint opts).sent
      = [CallJSONrequest "GET" endpoint (opts.getD NewOptionals)]
    ∧ (CallJSONrequest "GET" endpoint (opts.getD NewOptionals)).url
      = apiURL ++ "/" ++ endpoint ++ ".json?" ++ (opts.getD NewOptionals).encode
    ∧ (CallJSONrequest "GET" endpoint (opts.getD NewOptionals)).body = ""
    ∧ (CallJSONrequest "GET" endpoint (opts.getD NewOptionals)).headers = []
    ∧ (CallJSON t "POST" endpoint opts).sent
      = [CallJSONrequest "POST" endpoint (opts.getD NewOptionals)]
    ∧ (CallJSONrequest "POST" endpoint (opts.getD NewOptionals)).body
      = (opts.getD NewOptionals).encode
    ∧ (CallJSONrequest "POST" endpoint (opts.getD NewOptionals)).headers
      = [("Content-Type", "application/x-www-form-urlencoded")] := by
  refine ⟨callJSON_sent t "GET" endpoint opts (Or.inl rfl), ?_, ?_, ?_,
    callJSON_sent t "POST" endpoint opts (Or.inr rfl), rfl, rfl⟩
  · rfl
  · rfl
  · rfl

/-- C3: on a 2xx response decoded into a non-nil target, an unmarshal
failure of dynamic type *json.UnmarshalTypeError (structural mismatch of
syntactically valid JSON) is swallowed — Call reports no error — while an
unmarshal failure of any other dynamic type (malformed JSON) is returned. -/
theorem call_swallows_typeMismatch_only (t : Transport) (method endpoint : String)
    (opts : Option Optionals) (dec : String → Option GoError) (res : HttpResponse)
    (hm : method = "GET" ∨ method = "POST")
    (ht : t (CallJSONrequest method endpoint (opts.getD NewOptionals)) = .ok res)
    (h2 : 200 ≤ res.statusCode) (h3 : res.statusCode ≤ 299)
    (hr : res.read.readErr = none) :
    (∀ m, dec res.read.slurp = some (.typeMismatchError m) →
      (Call t method endpoint opts (some dec)).err = none)
    ∧ (∀ e, dec res.read.slurp = some e → isUnmarshalTypeError e = false →
      (Call t method endpoint opts (some dec)).err = some e) := by
  have hc := callJSON_success t method endpoint opts res hm ht h2 h3
  constructor
  · intro m hdec
    simp [Call, hc, hr, hdec, isUnmarshalTypeError]
  · intro e hdec hnot
    simp [Call, hc, hr, hdec, hnot]

/-- C3 witness: a 200 response whose JSON mismatches the target type is
swallowed by Call. -/
theorem call_swallows_typeMismatch_only_witness :
    (Call (fun _ => .ok ⟨200, ⟨"\x7b\"id\":\"not a number\"\x7d", none⟩,
        .fail "unused", .jsonError "unused"⟩)
      "GET" "statuses/mentions_timeline" none
      (some fun _ => some (.typeMismatchError
        "json: cannot unmarshal string into Go struct field"))).err = none := by
  exact (call_swallows_typeMismatch_only
      (fun _ => .ok ⟨200, ⟨"\x7b\"id\":\"not a number\"\x7d", none⟩,
        .fail "unused", .jsonError "unused"⟩)
      "GET" "statuses/mentions_timeline" none
      (fun _ => some (.typeMismatchError
        "json: cannot unmarshal string into Go struct field"))
      ⟨200, ⟨"\x7b\"id\":\"not a number\"\x7d", none⟩, .fail "unused",
        .jsonError "unused"⟩
      (Or.inl rfl) rfl (by decide) (by decide) rfl).1
    "json: cannot unmarshal string into Go struct field" rfl

/-- C6 counterexample: with status "hello" and an empty container, the
multipart request URL is the bare endpoint with an empty query string: it
does NOT carry the status (the source never adds the status to the
container it encodes into the URL), refuting the claim that the query
string redundantly carries the status. -/
theorem c6_counterexample :
    (updateStatusWithMediaRequest "BNDRY" "hello" ⟨"a.png", "DATA"⟩ NewOptionals).url
      = "https://api.twitter.com/1.1/statuses/update_with_media.json?"
    ∧ strContains
        (updateStatusWithMediaRequest "BNDRY" "hello" ⟨"a.png", "DATA"⟩ NewOptionals).url
        "hello" = false
    ∧ (UpdateStatusWithMedia (fun _ => .fail "refused") "hello" ⟨"a.png", "DATA"⟩
        none "BNDRY").sent
      = [updateStatusWithMediaRequest "BNDRY" "hello" ⟨"a.png", "DATA"⟩ NewOptionals] := by
  exact ⟨rfl, rfl, rfl⟩

/-- C6 (amended): the multipart request body opens with a status field
equal to the given status, contains one field per binding of the
container (carrying the first value bound to the name), and ends with a
file part named media[] carrying the attachment filename and bytes
followed by the closing delimiter; the Content-Type header names exactly
the boundary used inside the body; and the URL carries the encoded scalar
parameters — but NOT the status — as a redundant query string. -/
theorem updateStatusWithMedia_request_shape (status : String) (media : TweetMedia)
    (opts : Option Optionals) (boundary : String) :
    (∃ rest, (updateStatusWithMediaRequest boundary status media
        (opts.getD NewOptionals)).body
      = fieldPart boundary true "status" status ++ rest)
    ∧ (∀ p ∈ (opts.getD NewOptionals).values, ∃ pre post,
        (updateStatusWithMediaRequest boundary status media
          (opts.getD NewOptionals)).body
        = pre ++ (fieldPart boundary false p.1 (p.2.headD "") ++ post))
    ∧ (∃ pre, (updateStatusWithMediaRequest boundary status media
        (opts.getD NewOptionals)).body
      = pre ++ (filePart boundary false "media[]" media.filename media.data
          ++ closingDelim boundary))
    ∧ (updateStatusWithMediaRequest boundary status media
        (opts.getD NewOptionals)).headers
      = [("Content-Type", "multipart/form-data;boundary=" ++ boundary)]
    ∧ (updateStatusWithMediaRequest boundary status media
        (opts.getD NewOptionals)).url
      = apiURL ++ "/statuses/update_with_media.json?"
          ++ encodeValues (opts.getD NewOptionals).values := by
  refine ⟨⟨_, rfl⟩, ?_, ?_, rfl, rfl⟩
  · intro p hp
    obtain ⟨l1, l2, hsplit⟩ := List.append_of_mem hp
    refine ⟨fieldPart boundary true "status" status ++ paramFields boundary l1,
      strJoin (l2.map fun q => fieldPart boundary false q.1 (q.2.headD "")) ++
        (filePart boundary false "media[]" media.filename media.data
          ++ closingDelim boundary), ?_⟩
    simp [updateStatusWithMediaRequest, multipartBody, paramFields, hsplit,
      List.map_append, strJoin_append, strJoin, String.append_assoc]
  · refine ⟨fieldPart boundary true "status" status
        ++ paramFields boundary (opts.getD NewOptionals).values, ?_⟩
    simp [updateStatusWithMediaRequest, multipartBody, String.append_assoc]

/-- C6 witness: the amended shape at a concrete call with one container
binding; in particular the field part for that binding occurs in the
body. -/
theorem updateStatusWithMedia_request_shape_witness :
    ∃ pre post, (updateStatusWithMediaRequest "B" "hello" ⟨"a.png", "DATA"⟩
        ⟨[("lat", ["1"])]⟩).body
      = pre ++ (fieldPart "B" false "lat" "1" ++ post) := by
  exact (updateStatusWithMedia_request_shape "hello" ⟨"a.png", "DATA"⟩
      (some ⟨[("lat", ["1"])]⟩) "B").2.1 ("lat", ["1"]) (by simp)

/-- C10: for every 2xx transport response, UpdateStatusWithMedia returns
a nil tweet and a non-nil error, because it JSON-decodes the body into its
never-allocated nil named-return pointer: the success path is
unreachable. -/
theorem updateStatusWithMedia_success_unreachable (t : Transport) (status : String)
    (media : TweetMedia) (opts : Option Optionals) (boundary : String)
    (res : HttpResponse)
    (ht : t (updateStatusWithMediaRequest boundary status media
        (opts.getD NewOptionals)) = .ok res)
    (h2 : 200 ≤ res.statusCode) (h3 : res.statusCode ≤ 299) :
    (UpdateStatusWithMedia t status media opts boundary).tweet = none
    ∧ (UpdateStatusWithMedia t status media opts boundary).err
        = some res.decodeNilTweetErr
    ∧ (UpdateStatusWithMedia t status media opts boundary).err ≠ none := by
  have hu : UpdateStatusWithMedia t status media opts boundary
      = ⟨none, some res.decodeNilTweetErr, [],
          [updateStatusWithMediaRequest boundary status media
            (opts.getD NewOptionals)]⟩ := by
    unfold UpdateStatusWithMedia
    rw [ht]
    simp [checkResponse_success res h2 h3]
  rw [hu]
  exact ⟨rfl, rfl, by simp⟩

/-- C10 witness: a concrete 200 response whose body is valid JSON still
yields a nil tweet and the invalid-unmarshal error of the nil target. -/
theorem updateStatusWithMedia_success_unreachable_witness :
    (UpdateStatusWithMedia
        (fun _ => .ok ⟨200, ⟨"\x7b\"id\":1,\"text\":\"hi\"\x7d", none⟩,
          .fail "unused", .invalidUnmarshalError "json: Unmarshal nil pointer"⟩)
        "hello" ⟨"a.png", "DATA"⟩ none "B").tweet = none
    ∧ (UpdateStatusWithMedia
        (fun _ => .ok ⟨200, ⟨"\x7b\"id\":1,\"text\":\"hi\"\x7d", none⟩,
          .fail "unused", .invalidUnmarshalError "json: Unmarshal nil pointer"⟩)
        "hello" ⟨"a.png", "DATA"⟩ none "B").err
      = some (.invalidUnmarshalError "json: Unmarshal nil pointer") := by
  have h := updateStatusWithMedia_success_unreachable
    (fun _ => .ok ⟨200, ⟨"\x7b\"id\":1,\"text\":\"hi\"\x7d", none⟩,
      .fail "unused", .invalidUnmarshalError "json: Unmarshal nil pointer"⟩)
    "hello" ⟨"a.png", "DATA"⟩ none "B"
    ⟨200, ⟨"\x7b\"id\":1,\"text\":\"hi\"\x7d", none⟩,
      .fail "unused", .invalidUnmarshalError "json: Unmarshal nil pointer"⟩
    rfl (by decide) (by decide)
  exact ⟨h.1, h.2.1⟩

end Tweetlib
